import Mathlib

/-!
Verification of the Client Journey Simulation Engine
(`backend_v2/sim_client_engine.py`).

This file gives a shallow embedding of the engine in Lean 4 and proves the
spec's testable properties about it.  Modelling conventions:

* Python's `random.Random` (a Mersenne-Twister PRNG) is modelled by a
  deterministic 64-bit linear-congruential stand-in: the state is a `Nat`,
  `rnd.random()` advances the state and yields a rational in `[0, 1)`, and
  `rnd.choice(seq)` consumes one draw and selects `seq[floor(r * len(seq))]`.
  Every property proved below is independent of the particular distribution
  of draws; what matters is that the stream is a deterministic function of
  the seed, exactly as in the source.
* Wall-clock time (`datetime.utcnow()`) is modelled by an explicit
  parameter `now : Nat`, the POSIX timestamp in seconds at the moment of
  the call (the clock is assumed not to tick during one run).
  `dt.strftime("%I:%M %p")` is modelled arithmetically on seconds.
* Python `int` is `Int`; probabilities (`0.85` etc.) are exact `Rat`s.
* The dataclasses and the result dictionary are Lean structures.
-/

namespace SimEngine

set_option maxRecDepth 100000

/-- Stage: the closed `Literal` enumeration of funnel stages. -/
inductive Stage
  | new
  | inquiry
  | engaged
  | warm
  | active
  | hot
  | highIntent
  | underContract
  | converted
  | won
  | lost
deriving DecidableEq, Repr

/-- Actor: the `Literal["client", "assistant", "system"]` enumeration. -/
inductive Actor
  | client
  | assistant
  | system
deriving DecidableEq, Repr

/-- PersonaConfig dataclass. -/
structure PersonaConfig where
  key : String
  label : String
  description : String
  starting_stage : Stage
  reply_chance : Rat
  proactive_chance : Rat
  drop_off_chance : Rat
  revive_chance : Rat
deriving DecidableEq, Repr

/-- SimEvent dataclass. -/
structure SimEvent where
  day_index : Nat
  actor : Actor
  stage_before : Stage
  stage_after : Stage
  message : String
  time_label : String
deriving DecidableEq, Repr

/-- Persona catalog entry "hot_lead" (Hot Buyer). -/
def hot_lead : PersonaConfig :=
  { key := "hot_lead"
    label := "Hot Buyer"
    description := "Highly responsive lead with strong signals, quick replies, and rapid stage progression."
    starting_stage := .engaged
    reply_chance := 0.85
    proactive_chance := 0.60
    drop_off_chance := 0.05
    revive_chance := 0.15 }

/-- Persona catalog entry "ghosting_lead" (Ghosting Lead). -/
def ghosting_lead : PersonaConfig :=
  { key := "ghosting_lead"
    label := "Ghosting Lead"
    description := "Engages early but goes silent for long stretches. Assistant must follow nurture cadences."
    starting_stage := .warm
    reply_chance := 0.25
    proactive_chance := 0.65
    drop_off_chance := 0.12
    revive_chance := 0.30 }

/-- Persona catalog entry "slow_nurture" (Slow Nurture Lead). -/
def slow_nurture : PersonaConfig :=
  { key := "slow_nurture"
    label := "Slow Nurture Lead"
    description := "Replies every few days with smaller messages, moving slowly through the funnel."
    starting_stage := .new
    reply_chance := 0.40
    proactive_chance := 0.50
    drop_off_chance := 0.06
    revive_chance := 0.25 }

/-- Persona catalog entry "impatient_buyer" (Impatient Buyer). -/
def impatient_buyer : PersonaConfig :=
  { key := "impatient_buyer"
    label := "Impatient Buyer"
    description := "Demands fast answers, sends long and urgent messages, escalates quickly."
    starting_stage := .engaged
    reply_chance := 0.80
    proactive_chance := 0.70
    drop_off_chance := 0.03
    revive_chance := 0.12 }

/-- Persona catalog entry "research_heavy" (Research-Heavy Buyer). -/
def research_heavy : PersonaConfig :=
  { key := "research_heavy"
    label := "Research-Heavy Buyer"
    description := "Provides detailed replies, asks many questions, and takes time to evaluate options."
    starting_stage := .inquiry
    reply_chance := 0.55
    proactive_chance := 0.55
    drop_off_chance := 0.05
    revive_chance := 0.15 }

/-- Persona catalog entry "negative_cues" (Negative-Cues Lead). -/
def negative_cues : PersonaConfig :=
  { key := "negative_cues"
    label := "Negative-Cues Lead"
    description := "Short replies, longer delays, subtle hints of disengagement or uncertainty."
    starting_stage := .warm
    reply_chance := 0.30
    proactive_chance := 0.45
    drop_off_chance := 0.15
    revive_chance := 0.10 }

/-- The `_PERSONAS` dict, as an association list in insertion order. -/
def _PERSONAS : List (String × PersonaConfig) :=
  [("hot_lead", hot_lead),
   ("ghosting_lead", ghosting_lead),
   ("slow_nurture", slow_nurture),
   ("impatient_buyer", impatient_buyer),
   ("research_heavy", research_heavy),
   ("negative_cues", negative_cues)]

/-- The `_get_persona` lookup: unknown keys fall back to `hot_lead`
(the Python logs a warning and never raises). -/
def _get_persona (key : String) : PersonaConfig :=
  match _PERSONAS.lookup key with
  | some p => p
  | none => hot_lead

/-- The `_STAGE_FLOW` canonical stage list. -/
def _STAGE_FLOW : List Stage :=
  [.new, .inquiry, .engaged, .warm, .active, .hot, .highIntent,
   .underContract, .converted, .won, .lost]

/-! ### PRNG model -/

/-- One step of the modelled PRNG state (64-bit LCG stand-in for
`random.Random`'s Mersenne Twister). -/
def rngStep (s : Nat) : Nat :=
  (6364136223846793005 * s + 1442695040888963407) % 18446744073709551616

/-- The unit-interval value extracted from a PRNG state. -/
def rngVal (s : Nat) : Rat :=
  ((s % 4294967296 : Nat) : Rat) / (4294967296 : Rat)

/-- Model of `rnd.random()`: a value in `[0, 1)` plus the advanced state. -/
def randomUnit (s : Nat) : Rat × Nat :=
  (rngVal (rngStep s), rngStep s)

/-- Model of `random.Random(x)`: the initial PRNG state seeded by `x`. -/
def mkRandom (x : Int) : Nat :=
  (x % (18446744073709551616 : Int)).toNat

/-- Model of `rnd.choice(seq)`: consume one draw and pick
`seq[floor(r * len(seq))]`. -/
def choice (seq : List String) (rnd : Nat) : String × Nat :=
  let r := (randomUnit rnd).1
  let g := (randomUnit rnd).2
  (seq.getD ((r * seq.length).floor.toNat) "", g)

/-! ### Stage transition logic -/

/-- The `_next_stage` transition function, threading the PRNG state. -/
def _next_stage (current : Stage) (positive : Bool) (rnd : Nat) : Stage × Nat :=
  if current = .converted ∨ current = .lost ∨ current = .won then
    (current, rnd)
  else if positive = false then
    let r := (randomUnit rnd).1
    let g := (randomUnit rnd).2
    if r < (0.40 : Rat) then (.lost, g) else (current, g)
  else
    let idx := _STAGE_FLOW.indexOf current
    if _STAGE_FLOW.length - 1 ≤ idx then (.converted, rnd)
    else
      let r := (randomUnit rnd).1
      let g := (randomUnit rnd).2
      if r < (0.70 : Rat) then (_STAGE_FLOW.getD (idx + 1) current, g)
      else (current, g)

/-! ### Message generators -/

/-- The per-stage client message bank (`messages.get(stage, ["Just checking in…"])`). -/
def clientMessages (stage : Stage) : List String :=
  match stage with
  | .new =>
      ["Hi, I saw one of your listings and wanted more details.",
       "I\x27m early in the process and just exploring options."]
  | .inquiry =>
      ["I’m curious — can you help me compare some options?",
       "What would you recommend for my situation?"]
  | .engaged =>
      ["Thanks — can we dig deeper on neighborhoods?",
       "This is useful. Could you refine options for my budget?"]
  | .warm =>
      ["A couple of these look promising. What should I focus on?",
       "Can you break down the tradeoffs clearly?"]
  | .active =>
      ["I’m close to deciding. What’s realistic next?",
       "This week works — what’s the next step?"]
  | .hot =>
      ["I’m ready to move if the numbers work.",
       "This looks strong — what would you do in my position?"]
  | .highIntent =>
      ["Let\x27s move forward. Can we prep next steps?",
       "This aligns well. Let’s discuss numbers plus timing."]
  | .converted =>
      ["Appreciate everything — this feels like the right move.",
       "Thanks for the guidance, I’m moving ahead."]
  | .lost =>
      ["Thanks — I’m going to pause for now.",
       "I’ve decided to go another direction."]
  | _ => ["Just checking in…"]

/-- The `_client_message_for` generator (the persona argument is unused in
the source as well). -/
def _client_message_for (stage : Stage) (_persona : PersonaConfig) (rnd : Nat) :
    String × Nat :=
  choice (clientMessages stage) rnd

/-- The per-stage assistant message bank
(`messages.get(stage, ["I’ve summarized logical next steps."])`). -/
def assistantMessages (stage : Stage) : List String :=
  match stage with
  | .new =>
      ["Here’s a quick overview of the process plus a few tailored options.",
       "I’ve prepared a shortlist based on what most buyers like you prefer."]
  | .inquiry =>
      ["Here are three clear paths that could fit your needs.",
       "I’ve mapped pros and cons so you can compare quickly."]
  | .engaged =>
      ["Based on your feedback, I refined the best-matching options.",
       "Here’s a cleaner breakdown of the strongest fits."]
  | .warm =>
      ["Here’s a focused shortlist to make decisions easier.",
       "I’ve summarized the best next actions."]
  | .active =>
      ["Here’s a plan for the next 7–10 days.",
       "Timing-wise, this is the window where decisions work best."]
  | .hot =>
      ["Here’s a numbers + timing breakdown.",
       "Based on your criteria, here’s the move I’d prioritize."]
  | .highIntent =>
      ["Here’s a precise breakdown of terms so you can commit comfortably.",
       "I’ve structured a path that balances risk, timing, and upside."]
  | .converted =>
      ["I’ll keep everything organized in the background.",
       "Here are the next important dates and milestones."]
  | .lost =>
      ["If timing changes, I can resume instantly from where we left off.",
       "I’ll track new opportunities quietly in case things reopen."]
  | _ => ["I’ve summarized logical next steps."]

/-- The `_assistant_message_for` generator. -/
def _assistant_message_for (stage : Stage) (_persona : PersonaConfig) (rnd : Nat) :
    String × Nat :=
  choice (assistantMessages stage) rnd

/-- The `_system_summary_for` deterministic daily narration. -/
def _system_summary_for (day : Nat) (stage : Stage) (converted : Bool) (lost : Bool) :
    String :=
  if converted then
    "Day " ++ toString day ++ ": Lead converted; assistant will maintain structured follow-through."
  else if lost then
    "Day " ++ toString day ++ ": Lead is Lost; assistant remains on light-touch watch."
  else if stage = .highIntent ∨ stage = .hot ∨ stage = .active then
    "Day " ++ toString day ++ ": Lead is highly engaged; focused, time-sensitive communication recommended."
  else if stage = .warm ∨ stage = .engaged then
    "Day " ++ toString day ++ ": Lead warming steadily with consistent engagement."
  else
    "Day " ++ toString day ++ ": Early-stage nurture continuing; assistant keeps friction low."

/-! ### Time labels -/

/-- Zero-padded two-digit rendering of a number below 100. -/
def twoDigits (n : Nat) : String :=
  if n < 10 then "0" ++ toString n else toString n

/-- Model of `dt.strftime("%I:%M %p")` for a POSIX timestamp `t` in seconds:
a 12-hour zero-padded clock with an AM/PM marker. -/
def strftimeIMp (t : Nat) : String :=
  let secs := t % 86400
  let h := secs / 3600
  let m := (secs % 3600) / 60
  let h12 := if h % 12 = 0 then 12 else h % 12
  twoDigits h12 ++ ":" ++ twoDigits m ++ " " ++ (if h < 12 then "AM" else "PM")

/-! ### Day loop -/

/-- The mutable per-run state owned by `run_client_simulation`:
`current_stage`, the event list, the three message counters and the PRNG. -/
structure SimState where
  current_stage : Stage
  events : List SimEvent
  client_msg_count : Nat
  assistant_msg_count : Nat
  system_msg_count : Nat
  rnd : Nat
deriving DecidableEq, Repr

/-- Day-loop step 1: client reply (if not terminal). -/
def clientReplyStep (persona : PersonaConfig) (day : Nat) (day_label : String)
    (dt : Nat) (st : SimState) : SimState :=
  if ¬(st.current_stage = .converted ∨ st.current_stage = .lost) then
    let r := (randomUnit st.rnd).1
    let g := (randomUnit st.rnd).2
    if r < persona.reply_chance then
      let msg := (_client_message_for st.current_stage persona g).1
      let g2 := (_client_message_for st.current_stage persona g).2
      let new_stage := (_next_stage st.current_stage true g2).1
      let g3 := (_next_stage st.current_stage true g2).2
      { current_stage := new_stage
        events := st.events ++
          [{ day_index := day, actor := .client, stage_before := st.current_stage,
             stage_after := new_stage, message := msg,
             time_label := day_label ++ " — " ++ strftimeIMp dt }]
        client_msg_count := st.client_msg_count + 1
        assistant_msg_count := st.assistant_msg_count
        system_msg_count := st.system_msg_count
        rnd := g3 }
    else { st with rnd := g }
  else st

/-- Day-loop step 2: drop-off logic. -/
def dropOffStep (persona : PersonaConfig) (day : Nat) (day_label : String)
    (dt : Nat) (st : SimState) : SimState :=
  if ¬(st.current_stage = .converted ∨ st.current_stage = .lost) then
    let r := (randomUnit st.rnd).1
    let g := (randomUnit st.rnd).2
    if r < persona.drop_off_chance then
      let msg := (_client_message_for .lost persona g).1
      let g2 := (_client_message_for .lost persona g).2
      { current_stage := .lost
        events := st.events ++
          [{ day_index := day, actor := .client, stage_before := st.current_stage,
             stage_after := .lost, message := msg,
             time_label := day_label ++ " — " ++ strftimeIMp dt }]
        client_msg_count := st.client_msg_count + 1
        assistant_msg_count := st.assistant_msg_count
        system_msg_count := st.system_msg_count
        rnd := g2 }
    else { st with rnd := g }
  else st

/-- Day-loop step 3: assistant proactive follow-up.  The `0.30` draw happens
first; `_next_stage` consumes further draws only when it succeeds. -/
def proactiveStep (persona : PersonaConfig) (day : Nat) (day_label : String)
    (dt : Nat) (st : SimState) : SimState :=
  if ¬(st.current_stage = .converted ∨ st.current_stage = .lost) then
    let r := (randomUnit st.rnd).1
    let g := (randomUnit st.rnd).2
    if r < persona.proactive_chance then
      let msg := (_assistant_message_for st.current_stage persona g).1
      let g2 := (_assistant_message_for st.current_stage persona g).2
      let r2 := (randomUnit g2).1
      let g3 := (randomUnit g2).2
      let maybe_new :=
        if r2 < (0.30 : Rat) then (_next_stage st.current_stage true g3).1
        else st.current_stage
      let g4 :=
        if r2 < (0.30 : Rat) then (_next_stage st.current_stage true g3).2
        else g3
      { current_stage := maybe_new
        events := st.events ++
          [{ day_index := day, actor := .assistant, stage_before := st.current_stage,
             stage_after := maybe_new, message := msg,
             time_label := day_label ++ " — " ++ strftimeIMp (dt + 6 * 3600) }]
        client_msg_count := st.client_msg_count
        assistant_msg_count := st.assistant_msg_count + 1
        system_msg_count := st.system_msg_count
        rnd := g4 }
    else { st with rnd := g }
  else st

/-- Day-loop step 4: revival from Lost.  The short-circuiting `and` in the
source draws from the PRNG only when the stage is `Lost`. -/
def revivalStep (persona : PersonaConfig) (day : Nat) (day_label : String)
    (dt : Nat) (st : SimState) : SimState :=
  if st.current_stage = .lost then
    let r := (randomUnit st.rnd).1
    let g := (randomUnit st.rnd).2
    if r < persona.revive_chance then
      { current_stage := .warm
        events := st.events ++
          [{ day_index := day, actor := .client, stage_before := .lost,
             stage_after := .warm, message := "Replied after going quiet — revived.",
             time_label := day_label ++ " — " ++ strftimeIMp (dt + 9 * 3600) }]
        client_msg_count := st.client_msg_count + 1
        assistant_msg_count := st.assistant_msg_count
        system_msg_count := st.system_msg_count
        rnd := g }
    else { st with rnd := g }
  else st

/-- Day-loop step 5: the unconditional system summary event. -/
def systemSummaryStep (day : Nat) (day_label : String) (dt : Nat)
    (st : SimState) : SimState :=
  let conv := st.current_stage == Stage.converted
  let lostFlag := st.current_stage == Stage.lost
  let summary := _system_summary_for day st.current_stage conv lostFlag
  { current_stage := st.current_stage
    events := st.events ++
      [{ day_index := day, actor := .system, stage_before := st.current_stage,
         stage_after := st.current_stage, message := summary,
         time_label := day_label ++ " — " ++ strftimeIMp (dt + 20 * 3600) }]
    client_msg_count := st.client_msg_count
    assistant_msg_count := st.assistant_msg_count
    system_msg_count := st.system_msg_count + 1
    rnd := st.rnd }

/-- One iteration of the `for day in range(1, days + 1)` loop. -/
def simDay (persona : PersonaConfig) (days : Nat) (now : Nat) (day : Nat)
    (st : SimState) : SimState :=
  let day_label := "Day " ++ toString day
  let dt := now - (days - day) * 86400
  systemSummaryStep day day_label dt
    (revivalStep persona day day_label dt
      (proactiveStep persona day day_label dt
        (dropOffStep persona day day_label dt
          (clientReplyStep persona day day_label dt st))))

/-- The day loop itself: run `fuel` iterations starting at day `day`. -/
def simFrom (persona : PersonaConfig) (days : Nat) (now : Nat) :
    Nat → Nat → SimState → SimState
  | _, 0, st => st
  | day, fuel + 1, st =>
      simFrom persona days now (day + 1) fuel (simDay persona days now day st)

/-! ### Conversation graph engine -/

/-- One `stage_timeline` row. -/
structure StageRow where
  day : Nat
  stage : Stage
  stage_index : Nat
deriving DecidableEq, Repr

/-- One `message_timeline` row. -/
structure MsgRow where
  day : Nat
  client : Nat
  assistant : Nat
  system : Nat
deriving DecidableEq, Repr

/-- The stage-timeline loop: carries forward the last-known stage over silent
days and assigns `stage_index` in first-seen order. -/
def stage_timeline_rows (events : List SimEvent) :
    List Nat → Stage → List Stage → List StageRow
  | [], _, _ => []
  | d :: ds, last_stage, stage_order =>
      let todays := events.filter (fun e => e.day_index == d)
      let last2 :=
        match todays.getLast? with
        | some e => e.stage_after
        | none => last_stage
      let order2 :=
        if stage_order.contains last2 then stage_order else stage_order ++ [last2]
      { day := d, stage := last2, stage_index := order2.indexOf last2 } ::
        stage_timeline_rows events ds last2 order2

/-- The body of the inner `for e in events` loop of the message timeline:
skip events of other days, else bump the counter of the event's actor. -/
def countStep (d : Nat) (counts : MsgRow) (e : SimEvent) : MsgRow :=
  if e.day_index ≠ d then counts
  else
    match e.actor with
    | .client => { counts with client := counts.client + 1 }
    | .assistant => { counts with assistant := counts.assistant + 1 }
    | .system => { counts with system := counts.system + 1 }

/-- The per-day message-count accumulation (the inner `for e in events` loop
of the message timeline). -/
def dayCounts (events : List SimEvent) (d : Nat) : MsgRow :=
  events.foldl (countStep d) { day := d, client := 0, assistant := 0, system := 0 }

/-- The graphs payload. -/
structure Graphs where
  stage_timeline : List StageRow
  message_timeline : List MsgRow
deriving DecidableEq, Repr

/-- The `build_conversation_graph` post-processor.  `days` is a Python `int`
and `range(1, days + 1)` is empty when `days ≤ 0`. -/
def build_conversation_graph (events : List SimEvent) (days : Int) : Graphs :=
  let ds := List.range' 1 days.toNat
  { stage_timeline := stage_timeline_rows events ds .new []
    message_timeline := ds.map (fun d => dayCounts events d) }

/-! ### Main simulation function -/

/-- The stats block of the result. -/
structure SimStats where
  client_messages : Nat
  assistant_messages : Nat
  system_messages : Nat
  total_messages : Nat
deriving DecidableEq, Repr

/-- The dictionary returned by `run_client_simulation`. -/
structure SimResult where
  persona_key : String
  persona_label : String
  persona_description : String
  days : Int
  final_stage : Stage
  converted : Bool
  events : List SimEvent
  graphs : Graphs
  stats : SimStats
deriving DecidableEq, Repr

/-- Model of `seed or int(datetime.utcnow().timestamp())`: Python `or`
returns the right operand when `seed` is `None` or `0` (both falsy). -/
def seed_or_clock (seed : Option Int) (now : Nat) : Int :=
  match seed with
  | some s => if s = 0 then (now : Int) else s
  | none => (now : Int)

/-- The `run_client_simulation` orchestrator.  `now` is the wall clock
(POSIX seconds) at the moment of the call. -/
def run_client_simulation (days : Int) (persona_key : String)
    (seed : Option Int) (now : Nat) : SimResult :=
  let days := if days < 7 then 7 else days
  let days := if days > 90 then 90 else days
  let persona := _get_persona persona_key
  let rnd := mkRandom (seed_or_clock seed now)
  let nDays := days.toNat
  let st0 : SimState :=
    { current_stage := persona.starting_stage, events := [],
      client_msg_count := 0, assistant_msg_count := 0, system_msg_count := 0,
      rnd := rnd }
  let stF := simFrom persona nDays now 1 nDays st0
  let converted_flag := stF.events.any (fun e => e.stage_after == Stage.converted)
  let graphs := build_conversation_graph stF.events days
  { persona_key := persona.key
    persona_label := persona.label
    persona_description := persona.description
    days := days
    final_stage := stF.current_stage
    converted := converted_flag
    events := stF.events
    graphs := graphs
    stats :=
      { client_messages := stF.client_msg_count
        assistant_messages := stF.assistant_msg_count
        system_messages := stF.system_msg_count
        total_messages := stF.client_msg_count + stF.assistant_msg_count
          + stF.system_msg_count } }

/-! ### Verification-layer definitions -/

/-- Clamped day count, as computed at the top of `run_client_simulation`. -/
def clampedDays (days : Int) : Int :=
  let d1 := if days < 7 then 7 else days
  if d1 > 90 then 90 else d1

/-- The loop state reached at the end of a run, named for the proofs. -/
def runState (days : Int) (persona_key : String) (seed : Option Int) (now : Nat) :
    SimState :=
  let persona := _get_persona persona_key
  let nDays := (clampedDays days).toNat
  simFrom persona nDays now 1 nDays
    { current_stage := persona.starting_stage, events := [],
      client_msg_count := 0, assistant_msg_count := 0, system_msg_count := 0,
      rnd := mkRandom (seed_or_clock seed now) }

/-- Forward neighbour in the canonical stage flow. -/
def forwardNext (c : Stage) : Stage :=
  _STAGE_FLOW.getD (_STAGE_FLOW.indexOf c + 1) c

/-- Event projection that blanks the wall-clock-dependent `time_label`. -/
def eraseTime (e : SimEvent) : SimEvent :=
  { e with time_label := "" }

/-- Two loop states that agree on everything except the `time_label`s of
their events. -/
def ErasedEq (st1 st2 : SimState) : Prop :=
  st1.current_stage = st2.current_stage ∧
  st1.client_msg_count = st2.client_msg_count ∧
  st1.assistant_msg_count = st2.assistant_msg_count ∧
  st1.system_msg_count = st2.system_msg_count ∧
  st1.rnd = st2.rnd ∧
  st1.events.map eraseTime = st2.events.map eraseTime

/-- State update performed by every event-emitting branch of the day loop:
append the event, bump the matching actor counter, adopt the event's
`stage_after` as the current stage, and store the advanced PRNG state. -/
def appendEvent (st : SimState) (c : SimEvent) (g : Nat) : SimState :=
  { current_stage := c.stage_after
    events := st.events ++ [c]
    client_msg_count := st.client_msg_count + (if c.actor = .client then 1 else 0)
    assistant_msg_count := st.assistant_msg_count + (if c.actor = .assistant then 1 else 0)
    system_msg_count := st.system_msg_count + (if c.actor = .system then 1 else 0)
    rnd := g }

/-- Constraints satisfied by every event a day-loop step can emit from
state `st` on day `day`. -/
def EventFits (day : Nat) (st : SimState) (c : SimEvent) : Prop :=
  c.day_index = day ∧
  c.stage_before = st.current_stage ∧
  (c.stage_before = .lost → c.stage_after = .warm ∨ c.stage_after = .lost) ∧
  (st.current_stage ≠ .won → c.stage_after ≠ .won) ∧
  (st.current_stage = .converted → c.stage_after = .converted)

/-- Shape of a day-loop step: it either only advances the PRNG, or appends
one fitting event with the step's actor. -/
def StepShape (day : Nat) (a : Actor) (st st2 : SimState) : Prop :=
  (∃ g, st2 = { st with rnd := g }) ∨
  (∃ c g, c.actor = a ∧ EventFits day st c ∧ st2 = appendEvent st c g)

/-- Decidable statement of Converted-absorption over an event list: from the
first event with `stage_after == Converted` on, every event has
`stage_after == Converted`. -/
def convStickyB (l : List SimEvent) : Bool :=
  (l.dropWhile (fun e => !(e.stage_after == Stage.converted))).all
    (fun e => e.stage_after == Stage.converted)

/-- Decidable statement that events leaving `Lost` only go to `Warm`
(revival) or stay `Lost`. -/
def lostOkB (l : List SimEvent) : Bool :=
  l.all (fun e =>
    !(e.stage_before == Stage.lost) ||
      (e.stage_after == Stage.warm || e.stage_after == Stage.lost))

/-- Decidable statement that no event touches the `Won` stage. -/
def wonFreeB (l : List SimEvent) : Bool :=
  l.all (fun e => !(e.stage_before == Stage.won) && !(e.stage_after == Stage.won))

/-- Decidable statement that system events never change the stage. -/
def sysStageB (l : List SimEvent) : Bool :=
  l.all (fun e => !(e.actor == Actor.system) || (e.stage_before == e.stage_after))

/-- Ordering relation between consecutive events: day indices never decrease,
and a system event is the last event of its day (any later event belongs to a
strictly later day). -/
def evtOrder (e1 e2 : SimEvent) : Prop :=
  e1.day_index ≤ e2.day_index ∧
  (e1.actor = Actor.system → e1.day_index < e2.day_index)

/-- Invariant holding while day `d + 1` is being generated, `d` full days
having been emitted already. -/
structure MidInv (d : Nat) (day : Nat) (st : SimState) : Prop where
  has_conv : ∀ e ∈ st.events, e.stage_after = Stage.converted →
    st.current_stage = Stage.converted
  sticky : convStickyB st.events = true
  lost_ok : lostOkB st.events = true
  won_stage : st.current_stage ≠ Stage.won
  won_free : wonFreeB st.events = true
  counts_client : st.client_msg_count = st.events.countP (fun e => e.actor == Actor.client)
  counts_assistant : st.assistant_msg_count = st.events.countP (fun e => e.actor == Actor.assistant)
  counts_system : st.system_msg_count = st.events.countP (fun e => e.actor == Actor.system)
  day_le : ∀ e ∈ st.events, 1 ≤ e.day_index ∧ e.day_index ≤ day
  sys_day_count : ∀ d2, st.events.countP
    (fun e => e.actor == Actor.system && e.day_index == d2) =
    if 1 ≤ d2 ∧ d2 ≤ d then 1 else 0
  sys_stage : sysStageB st.events = true
  ordered : List.Chain' evtOrder st.events

/-- Invariant between whole days: `d` full days have been emitted. -/
def LoopInv (d : Nat) (st : SimState) : Prop :=
  MidInv d d st

/-! ### Basic lemmas -/

theorem run_client_simulation_eq (days : Int) (pk : String) (seed : Option Int)
    (now : Nat) :
    run_client_simulation days pk seed now =
      { persona_key := (_get_persona pk).key
        persona_label := (_get_persona pk).label
        persona_description := (_get_persona pk).description
        days := clampedDays days
        final_stage := (runState days pk seed now).current_stage
        converted := (runState days pk seed now).events.any
          (fun e => e.stage_after == Stage.converted)
        events := (runState days pk seed now).events
        graphs := build_conversation_graph (runState days pk seed now).events
          (clampedDays days)
        stats :=
          { client_messages := (runState days pk seed now).client_msg_count
            assistant_messages := (runState days pk seed now).assistant_msg_count
            system_messages := (runState days pk seed now).system_msg_count
            total_messages := (runState days pk seed now).client_msg_count
              + (runState days pk seed now).assistant_msg_count
              + (runState days pk seed now).system_msg_count } } := rfl

theorem clampedDays_lower (days : Int) : 7 ≤ clampedDays days := by
  simp only [clampedDays]
  split <;> split <;> omega

theorem clampedDays_upper (days : Int) : clampedDays days ≤ 90 := by
  simp only [clampedDays]
  split <;> split <;> omega

theorem clampedDays_id (days : Int) (h1 : 7 ≤ days) (h2 : days ≤ 90) :
    clampedDays days = days := by
  simp only [clampedDays]
  split <;> split <;> omega

theorem next_stage_terminal (c : Stage) (g : Nat)
    (h : c = .converted ∨ c = .lost ∨ c = .won) :
    _next_stage c true g = (c, g) := by
  unfold _next_stage
  rw [if_pos h]

theorem next_stage_pos (c : Stage) (g : Nat)
    (h : ¬(c = .converted ∨ c = .lost ∨ c = .won)) :
    _next_stage c true g =
      (if (randomUnit g).1 < (0.70 : Rat) then forwardNext c else c,
       (randomUnit g).2) := by
  have hidx : ¬(_STAGE_FLOW.length - 1 ≤ _STAGE_FLOW.indexOf c) := by
    rcases c <;> first
      | exact absurd (Or.inl rfl) h
      | exact absurd (Or.inr (Or.inl rfl)) h
      | exact absurd (Or.inr (Or.inr rfl)) h
      | decide
  unfold _next_stage
  rw [if_neg h, if_neg (by decide : ¬(true = false))]
  simp only [forwardNext]
  by_cases hr : (randomUnit g).1 < (0.70 : Rat) <;> simp [hidx, hr]

theorem next_stage_ne_won (c : Stage) (g : Nat) (h : c ≠ .won) :
    (_next_stage c true g).1 ≠ .won := by
  by_cases ht : c = .converted ∨ c = .lost ∨ c = .won
  · rw [next_stage_terminal c g ht]
    exact h
  · rw [next_stage_pos c g ht]
    have hf : forwardNext c ≠ .won := by
      rcases c <;> first
        | exact absurd (Or.inl rfl) ht
        | exact absurd (Or.inr (Or.inl rfl)) ht
        | exact absurd (Or.inr (Or.inr rfl)) ht
        | decide
    by_cases hr : (randomUnit g).1 < (0.70 : Rat) <;> simp [hr, hf, h]

theorem next_stage_from_converted (g : Nat) :
    _next_stage .converted true g = (.converted, g) :=
  next_stage_terminal _ _ (by simp)

theorem lookup_personas_some (key : String) (p : PersonaConfig)
    (h : _PERSONAS.lookup key = some p) :
    p.key = key ∧ p.starting_stage ≠ .won := by
  simp only [_PERSONAS, List.lookup] at h
  repeat' split at h
  all_goals simp_all [hot_lead, ghosting_lead, slow_nurture, impatient_buyer,
    research_heavy, negative_cues]
  all_goals (cases h; exact ⟨rfl, by decide⟩)

theorem get_persona_starting_ne_won (key : String) :
    (_get_persona key).starting_stage ≠ .won := by
  unfold _get_persona
  split
  · next p h => exact (lookup_personas_some key p h).2
  · decide

/-! ### Shapes of the five day-loop steps -/

theorem clientReplyStep_shape (p : PersonaConfig) (day : Nat) (dl : String)
    (dt : Nat) (st : SimState) :
    StepShape day .client st (clientReplyStep p day dl dt st) := by
  unfold clientReplyStep StepShape
  by_cases hA : ¬(st.current_stage = .converted ∨ st.current_stage = .lost)
  · rw [if_pos hA]
    by_cases hr : (randomUnit st.rnd).1 < p.reply_chance
    · rw [if_pos hr]
      right
      refine ⟨⟨day, .client, st.current_stage,
        (_next_stage st.current_stage true
          (_client_message_for st.current_stage p (randomUnit st.rnd).2).2).1,
        (_client_message_for st.current_stage p (randomUnit st.rnd).2).1,
        dl ++ " — " ++ strftimeIMp dt⟩,
        (_next_stage st.current_stage true
          (_client_message_for st.current_stage p (randomUnit st.rnd).2).2).2,
        rfl, ⟨rfl, rfl, ?_, ?_, ?_⟩, ?_⟩
      · intro hb
        exact absurd (Or.inr hb) hA
      · intro hw
        exact next_stage_ne_won _ _ hw
      · intro hc
        exact absurd (Or.inl hc) hA
      · simp [appendEvent]
    · rw [if_neg hr]
      exact Or.inl ⟨_, rfl⟩
  · rw [if_neg hA]
    exact Or.inl ⟨st.rnd, rfl⟩

theorem dropOffStep_shape (p : PersonaConfig) (day : Nat) (dl : String)
    (dt : Nat) (st : SimState) :
    StepShape day .client st (dropOffStep p day dl dt st) := by
  unfold dropOffStep StepShape
  by_cases hA : ¬(st.current_stage = .converted ∨ st.current_stage = .lost)
  · rw [if_pos hA]
    by_cases hr : (randomUnit st.rnd).1 < p.drop_off_chance
    · rw [if_pos hr]
      right
      refine ⟨⟨day, .client, st.current_stage, .lost,
        (_client_message_for .lost p (randomUnit st.rnd).2).1,
        dl ++ " — " ++ strftimeIMp dt⟩,
        (_client_message_for .lost p (randomUnit st.rnd).2).2,
        rfl, ⟨rfl, rfl, ?_, ?_, ?_⟩, ?_⟩
      · intro hb
        exact absurd (Or.inr hb) hA
      · intro _
        simp
      · intro hc
        exact absurd (Or.inl hc) hA
      · simp [appendEvent]
    · rw [if_neg hr]
      exact Or.inl ⟨_, rfl⟩
  · rw [if_neg hA]
    exact Or.inl ⟨st.rnd, rfl⟩

theorem proactiveStep_shape (p : PersonaConfig) (day : Nat) (dl : String)
    (dt : Nat) (st : SimState) :
    StepShape day .assistant st (proactiveStep p day dl dt st) := by
  unfold proactiveStep StepShape
  by_cases hA : ¬(st.current_stage = .converted ∨ st.current_stage = .lost)
  · rw [if_pos hA]
    by_cases hr : (randomUnit st.rnd).1 < p.proactive_chance
    · rw [if_pos hr]
      right
      refine ⟨⟨day, .assistant, st.current_stage,
        (if (randomUnit
              (_assistant_message_for st.current_stage p (randomUnit st.rnd).2).2).1
            < (0.30 : Rat) then
          (_next_stage st.current_stage true
            (randomUnit
              (_assistant_message_for st.current_stage p (randomUnit st.rnd).2).2).2).1
        else st.current_stage),
        (_assistant_message_for st.current_stage p (randomUnit st.rnd).2).1,
        dl ++ " — " ++ strftimeIMp (dt + 6 * 3600)⟩,
        (if (randomUnit
              (_assistant_message_for st.current_stage p (randomUnit st.rnd).2).2).1
            < (0.30 : Rat) then
          (_next_stage st.current_stage true
            (randomUnit
              (_assistant_message_for st.current_stage p (randomUnit st.rnd).2).2).2).2
        else (randomUnit
          (_assistant_message_for st.current_stage p (randomUnit st.rnd).2).2).2),
        rfl, ⟨rfl, rfl, ?_, ?_, ?_⟩, ?_⟩
      · intro hb
        exact absurd (Or.inr hb) hA
      · intro hw
        dsimp only
        split
        · exact next_stage_ne_won _ _ hw
        · exact hw
      · intro hc
        exact absurd (Or.inl hc) hA
      · simp [appendEvent]
    · rw [if_neg hr]
      exact Or.inl ⟨_, rfl⟩
  · rw [if_neg hA]
    exact Or.inl ⟨st.rnd, rfl⟩

theorem revivalStep_shape (p : PersonaConfig) (day : Nat) (dl : String)
    (dt : Nat) (st : SimState) :
    StepShape day .client st (revivalStep p day dl dt st) := by
  unfold revivalStep StepShape
  by_cases hL : st.current_stage = .lost
  · rw [if_pos hL]
    by_cases hr : (randomUnit st.rnd).1 < p.revive_chance
    · rw [if_pos hr]
      right
      refine ⟨⟨day, .client, .lost, .warm, "Replied after going quiet — revived.",
        dl ++ " — " ++ strftimeIMp (dt + 9 * 3600)⟩,
        (randomUnit st.rnd).2,
        rfl, ⟨rfl, hL.symm, ?_, ?_, ?_⟩, ?_⟩
      · intro _
        exact Or.inl rfl
      · intro _
        simp
      · intro hc
        rw [hc] at hL
        exact absurd hL (by decide)
      · simp [appendEvent]
    · rw [if_neg hr]
      exact Or.inl ⟨_, rfl⟩
  · rw [if_neg hL]
    exact Or.inl ⟨st.rnd, rfl⟩

theorem systemSummaryStep_shape (day : Nat) (dl : String) (dt : Nat)
    (st : SimState) :
    systemSummaryStep day dl dt st =
      appendEvent st
        { day_index := day, actor := .system, stage_before := st.current_stage,
          stage_after := st.current_stage,
          message := _system_summary_for day st.current_stage
            (st.current_stage == Stage.converted) (st.current_stage == Stage.lost),
          time_label := dl ++ " — " ++ strftimeIMp (dt + 20 * 3600) }
        st.rnd := by
  simp [systemSummaryStep, appendEvent]

/-! ### Invariant preservation -/

theorem convStickyB_append :
    ∀ (l : List SimEvent) (c : SimEvent), convStickyB l = true →
      ((∃ e ∈ l, e.stage_after = Stage.converted) →
        c.stage_after = Stage.converted) →
      convStickyB (l ++ [c]) = true := by
  intro l c
  induction l with
  | nil =>
      intro _ _
      by_cases hc : c.stage_after = Stage.converted <;>
        simp [convStickyB, hc]
  | cons e l ih =>
      intro hl h
      by_cases he : e.stage_after = Stage.converted
      · have hc : c.stage_after = Stage.converted := h ⟨e, by simp, he⟩
        simp only [convStickyB, List.cons_append, List.dropWhile_cons, he,
          beq_self_eq_true, Bool.not_true, if_false, List.all_cons,
          List.all_append, List.all_nil] at hl ⊢
        simp_all
      · have hl2 : convStickyB l = true := by
          simpa [convStickyB, List.dropWhile_cons, he] using hl
        have h2 : (∃ e2 ∈ l, e2.stage_after = Stage.converted) →
            c.stage_after = Stage.converted := by
          rintro ⟨e2, m, hc2⟩
          exact h ⟨e2, by simp [m], hc2⟩
        simpa [convStickyB, List.dropWhile_cons, he] using ih hl2 h2

theorem sys_not_today {d day : Nat} {st : SimState} (hday : day = d + 1)
    (hinv : MidInv d day st) :
    ∀ e ∈ st.events, e.actor = Actor.system → e.day_index ≠ day := by
  intro e he hsys
  have h0 : st.events.countP
      (fun e => e.actor == Actor.system && e.day_index == day) = 0 := by
    rw [hinv.sys_day_count day]
    have hno : ¬(1 ≤ day ∧ day ≤ d) := by omega
    simp [hno]
  have := List.countP_eq_zero.mp h0 e he
  intro hd
  exact this (by simp [hsys, hd])

theorem ordered_append {d day : Nat} {st : SimState} {c : SimEvent}
    (hday : day = d + 1) (hcday : c.day_index = day) (hinv : MidInv d day st) :
    List.Chain' evtOrder (st.events ++ [c]) := by
  rw [List.chain'_append]
  refine ⟨hinv.ordered, List.chain'_singleton c, ?_⟩
  intro x hx y hy
  have hxm : x ∈ st.events := List.mem_of_mem_getLast? hx
  have hyc : c = y := by simpa using hy
  subst hyc
  constructor
  · rw [hcday]
    exact (hinv.day_le x hxm).2
  · intro hsys
    have hne := sys_not_today hday hinv x hxm hsys
    have hle := (hinv.day_le x hxm).2
    rw [hcday]
    omega

theorem midInv_append {d day : Nat} {st : SimState} {c : SimEvent} {g : Nat}
    (hday : day = d + 1) (hfits : EventFits day st c)
    (hns : c.actor ≠ Actor.system) (hinv : MidInv d day st) :
    MidInv d day (appendEvent st c g) := by
  obtain ⟨hc_day, hc_before, hc_lost, hc_won, hc_conv⟩ := hfits
  constructor
  · -- has_conv
    intro e he hconv
    show c.stage_after = Stage.converted
    rcases List.mem_append.mp he with h1 | h1
    · exact hc_conv (hinv.has_conv e h1 hconv)
    · simp only [List.mem_singleton] at h1
      rwa [h1] at hconv
  · -- sticky
    exact convStickyB_append st.events c hinv.sticky
      (fun ⟨e, he, hconv⟩ => hc_conv (hinv.has_conv e he hconv))
  · -- lost_ok
    simp only [appendEvent, lostOkB, List.all_append, List.all_cons,
      List.all_nil, Bool.and_true, Bool.and_eq_true]
    refine ⟨hinv.lost_ok, ?_⟩
    by_cases hb : c.stage_before = Stage.lost
    · rcases hc_lost hb with h2 | h2 <;> simp [hb, h2]
    · simp [hb]
  · -- won_stage
    exact hc_won hinv.won_stage
  · -- won_free
    simp only [appendEvent, wonFreeB, List.all_append, List.all_cons,
      List.all_nil, Bool.and_true, Bool.and_eq_true]
    refine ⟨hinv.won_free, ?_⟩
    have h1 : c.stage_before ≠ Stage.won := by
      rw [hc_before]
      exact hinv.won_stage
    have h2 : c.stage_after ≠ Stage.won := hc_won hinv.won_stage
    simp [h1, h2]
  · -- counts_client
    simp only [appendEvent, List.countP_append, List.countP_cons,
      List.countP_nil, hinv.counts_client]
    by_cases ha : c.actor = Actor.client <;> simp [ha]
  · -- counts_assistant
    simp only [appendEvent, List.countP_append, List.countP_cons,
      List.countP_nil, hinv.counts_assistant]
    by_cases ha : c.actor = Actor.assistant <;> simp [ha]
  · -- counts_system
    simp only [appendEvent, List.countP_append, List.countP_cons,
      List.countP_nil, hinv.counts_system]
    simp [hns]
  · -- day_le
    intro e he
    rcases List.mem_append.mp he with h1 | h1
    · exact hinv.day_le e h1
    · simp only [List.mem_singleton] at h1
      subst h1
      rw [hc_day]
      omega
  · -- sys_day_count
    intro d2
    simp only [appendEvent, List.countP_append, List.countP_cons, List.countP_nil]
    rw [hinv.sys_day_count d2]
    simp [hns]
  · -- sys_stage
    simp only [appendEvent, sysStageB, List.all_append, List.all_cons,
      List.all_nil, Bool.and_true, Bool.and_eq_true]
    exact ⟨hinv.sys_stage, by simp [hns]⟩
  · -- ordered
    exact ordered_append hday hc_day hinv

theorem midInv_rnd {d day : Nat} {st : SimState} (g : Nat)
    (hinv : MidInv d day st) : MidInv d day { st with rnd := g } := by
  constructor <;>
    first
      | exact hinv.has_conv
      | exact hinv.sticky
      | exact hinv.lost_ok
      | exact hinv.won_stage
      | exact hinv.won_free
      | exact hinv.counts_client
      | exact hinv.counts_assistant
      | exact hinv.counts_system
      | exact hinv.day_le
      | exact hinv.sys_day_count
      | exact hinv.sys_stage
      | exact hinv.ordered

theorem midInv_step {d day : Nat} {a : Actor} {st st2 : SimState}
    (hday : day = d + 1) (ha : a ≠ Actor.system)
    (hs : StepShape day a st st2) (hinv : MidInv d day st) : MidInv d day st2 := by
  rcases hs with ⟨g, rfl⟩ | ⟨c, g, hact, hfits, rfl⟩
  · exact midInv_rnd g hinv
  · exact midInv_append hday hfits (fun h => ha (hact ▸ h)) hinv

theorem loopInv_append_system {d : Nat} {st : SimState} {c : SimEvent} {g : Nat}
    (hc_day : c.day_index = d + 1) (hc_act : c.actor = Actor.system)
    (hc_before : c.stage_before = st.current_stage)
    (hc_after : c.stage_after = st.current_stage)
    (hinv : MidInv d (d + 1) st) :
    LoopInv (d + 1) (appendEvent st c g) := by
  constructor
  · intro e he hconv
    show c.stage_after = Stage.converted
    rcases List.mem_append.mp he with h1 | h1
    · rw [hc_after]
      exact hinv.has_conv e h1 hconv
    · simp only [List.mem_singleton] at h1
      rwa [h1] at hconv
  · refine convStickyB_append st.events c hinv.sticky ?_
    rintro ⟨e, he, hconv⟩
    rw [hc_after]
    exact hinv.has_conv e he hconv
  · simp only [appendEvent, lostOkB, List.all_append, List.all_cons,
      List.all_nil, Bool.and_true, Bool.and_eq_true]
    refine ⟨hinv.lost_ok, ?_⟩
    by_cases hb : c.stage_before = Stage.lost
    · have ha : c.stage_after = Stage.lost := by
        rw [hc_after, ← hc_before]
        exact hb
      simp [hb, ha]
    · simp [hb]
  · show c.stage_after ≠ Stage.won
    rw [hc_after]
    exact hinv.won_stage
  · simp only [appendEvent, wonFreeB, List.all_append, List.all_cons,
      List.all_nil, Bool.and_true, Bool.and_eq_true]
    refine ⟨hinv.won_free, ?_⟩
    have h1 : c.stage_before ≠ Stage.won := by
      rw [hc_before]
      exact hinv.won_stage
    have h2 : c.stage_after ≠ Stage.won := by
      rw [hc_after]
      exact hinv.won_stage
    simp [h1, h2]
  · simp only [appendEvent, List.countP_append, List.countP_cons,
      List.countP_nil, hinv.counts_client]
    simp [hc_act]
  · simp only [appendEvent, List.countP_append, List.countP_cons,
      List.countP_nil, hinv.counts_assistant]
    simp [hc_act]
  · simp only [appendEvent, List.countP_append, List.countP_cons,
      List.countP_nil, hinv.counts_system]
    simp [hc_act]
  · intro e he
    rcases List.mem_append.mp he with h1 | h1
    · exact hinv.day_le e h1
    · simp only [List.mem_singleton] at h1
      subst h1
      rw [hc_day]
      omega
  · intro d2
    simp only [appendEvent, List.countP_append, List.countP_cons, List.countP_nil]
    rw [hinv.sys_day_count d2]
    by_cases h2 : d2 = d + 1
    · subst h2
      have hmatch : (c.actor == Actor.system && c.day_index == d + 1) = true := by
        simp [hc_act, hc_day]
      rw [hmatch]
      have hno : ¬(1 ≤ d + 1 ∧ d + 1 ≤ d) := by omega
      have hyes : 1 ≤ d + 1 ∧ d + 1 ≤ d + 1 := by omega
      simp [hno, hyes]
    · have hmatch : (c.actor == Actor.system && c.day_index == d2) = false := by
        rw [hc_day]
        simp only [Bool.and_eq_false_iff, beq_eq_false_iff_ne]
        right
        omega
      rw [hmatch]
      have hsame : (if 1 ≤ d2 ∧ d2 ≤ d then (1 : Nat) else 0) =
          if 1 ≤ d2 ∧ d2 ≤ d + 1 then 1 else 0 := by
        split <;> split <;> omega
      simpa using hsame
  · simp only [appendEvent, sysStageB, List.all_append, List.all_cons,
      List.all_nil, Bool.and_true, Bool.and_eq_true]
    refine ⟨hinv.sys_stage, ?_⟩
    simp [hc_before, hc_after]
  · exact ordered_append rfl hc_day hinv

theorem midInv_relax {d : Nat} {st : SimState} (hinv : MidInv d d st) :
    MidInv d (d + 1) st := by
  constructor
  · exact hinv.has_conv
  · exact hinv.sticky
  · exact hinv.lost_ok
  · exact hinv.won_stage
  · exact hinv.won_free
  · exact hinv.counts_client
  · exact hinv.counts_assistant
  · exact hinv.counts_system
  · intro e he
    have h := hinv.day_le e he
    exact ⟨h.1, by omega⟩
  · exact hinv.sys_day_count
  · exact hinv.sys_stage
  · exact hinv.ordered

theorem midInv_day_steps {d : Nat} {st : SimState} (p : PersonaConfig)
    (dl : String) (dt : Nat) (hinv : MidInv d (d + 1) st) :
    MidInv d (d + 1)
      (revivalStep p (d + 1) dl dt
        (proactiveStep p (d + 1) dl dt
          (dropOffStep p (d + 1) dl dt
            (clientReplyStep p (d + 1) dl dt st)))) := by
  have h1 := midInv_step rfl (by decide : Actor.client ≠ Actor.system)
    (clientReplyStep_shape p (d + 1) dl dt st) hinv
  have h2 := midInv_step rfl (by decide : Actor.client ≠ Actor.system)
    (dropOffStep_shape p (d + 1) dl dt
      (clientReplyStep p (d + 1) dl dt st)) h1
  have h3 := midInv_step rfl (by decide : Actor.assistant ≠ Actor.system)
    (proactiveStep_shape p (d + 1) dl dt
      (dropOffStep p (d + 1) dl dt
        (clientReplyStep p (d + 1) dl dt st))) h2
  exact midInv_step rfl (by decide : Actor.client ≠ Actor.system)
    (revivalStep_shape p (d + 1) dl dt
      (proactiveStep p (d + 1) dl dt
        (dropOffStep p (d + 1) dl dt
          (clientReplyStep p (d + 1) dl dt st)))) h3

theorem loopInv_simDay {d : Nat} {st : SimState} (p : PersonaConfig)
    (days now : Nat) (hinv : LoopInv d st) :
    LoopInv (d + 1) (simDay p days now (d + 1) st) := by
  have h0 : MidInv d (d + 1) st := midInv_relax hinv
  have h4 := midInv_day_steps p ("Day " ++ toString (d + 1))
    (now - (days - (d + 1)) * 86400) h0
  show LoopInv (d + 1) (systemSummaryStep (d + 1) _ _ _)
  rw [systemSummaryStep_shape]
  exact loopInv_append_system rfl rfl rfl rfl h4

theorem loopInv_simFrom (p : PersonaConfig) (days now : Nat) :
    ∀ (fuel d : Nat) (st : SimState), LoopInv d st →
      LoopInv (d + fuel) (simFrom p days now (d + 1) fuel st) := by
  intro fuel
  induction fuel with
  | zero =>
      intro d st h
      simpa [simFrom] using h
  | succ n ih =>
      intro d st h
      have h2 := loopInv_simDay p days now h
      have h3 := ih (d + 1) _ h2
      have harith : d + (n + 1) = d + 1 + n := by omega
      rw [harith]
      simpa [simFrom] using h3

theorem loopInv_init (stage : Stage) (h : stage ≠ .won) (g : Nat) :
    LoopInv 0 { current_stage := stage, events := [], client_msg_count := 0,
                assistant_msg_count := 0, system_msg_count := 0, rnd := g } := by
  constructor
  · intro e he
    simp at he
  · rfl
  · rfl
  · exact h
  · rfl
  · rfl
  · rfl
  · rfl
  · intro e he
    simp at he
  · intro d2
    have hno : ¬(1 ≤ d2 ∧ d2 ≤ 0) := by omega
    rw [if_neg hno]
    rfl
  · rfl
  · simp

theorem runState_inv (days : Int) (pk : String) (seed : Option Int) (now : Nat) :
    LoopInv (clampedDays days).toNat (runState days pk seed now) := by
  unfold runState
  have h0 := loopInv_init (_get_persona pk).starting_stage
    (get_persona_starting_ne_won pk) (mkRandom (seed_or_clock seed now))
  have h1 := loopInv_simFrom (_get_persona pk) (clampedDays days).toNat now
    (clampedDays days).toNat 0 _ h0
  simpa using h1

/-! ### System message counting -/

theorem stepShape_sys_count {day : Nat} {a : Actor} {st st2 : SimState}
    (ha : a ≠ Actor.system) (hs : StepShape day a st st2) :
    st2.system_msg_count = st.system_msg_count := by
  rcases hs with ⟨g, rfl⟩ | ⟨c, g, hact, _, rfl⟩
  · rfl
  · have : c.actor ≠ Actor.system := fun h => ha (hact ▸ h)
    simp [appendEvent, this]

theorem simDay_sys_count (p : PersonaConfig) (days now day : Nat) (st : SimState) :
    (simDay p days now day st).system_msg_count = st.system_msg_count + 1 := by
  unfold simDay
  rw [systemSummaryStep_shape]
  have h1 := stepShape_sys_count (by decide : Actor.client ≠ Actor.system)
    (clientReplyStep_shape p day ("Day " ++ toString day)
      (now - (days - day) * 86400) st)
  have h2 := stepShape_sys_count (by decide : Actor.client ≠ Actor.system)
    (dropOffStep_shape p day ("Day " ++ toString day)
      (now - (days - day) * 86400)
      (clientReplyStep p day ("Day " ++ toString day)
        (now - (days - day) * 86400) st))
  have h3 := stepShape_sys_count (by decide : Actor.assistant ≠ Actor.system)
    (proactiveStep_shape p day ("Day " ++ toString day)
      (now - (days - day) * 86400)
      (dropOffStep p day ("Day " ++ toString day)
        (now - (days - day) * 86400)
        (clientReplyStep p day ("Day " ++ toString day)
          (now - (days - day) * 86400) st)))
  have h4 := stepShape_sys_count (by decide : Actor.client ≠ Actor.system)
    (revivalStep_shape p day ("Day " ++ toString day)
      (now - (days - day) * 86400)
      (proactiveStep p day ("Day " ++ toString day)
        (now - (days - day) * 86400)
        (dropOffStep p day ("Day " ++ toString day)
          (now - (days - day) * 86400)
          (clientReplyStep p day ("Day " ++ toString day)
            (now - (days - day) * 86400) st))))
  simp [appendEvent, h1, h2, h3, h4]

theorem simFrom_sys_count (p : PersonaConfig) (days now : Nat) :
    ∀ (fuel day : Nat) (st : SimState),
      (simFrom p days now day fuel st).system_msg_count =
        st.system_msg_count + fuel := by
  intro fuel
  induction fuel with
  | zero =>
      intro day st
      simp [simFrom]
  | succ n ih =>
      intro day st
      have h := ih (day + 1) (simDay p days now day st)
      simp only [simFrom]
      rw [h, simDay_sys_count]
      omega

/-! ### Wall-clock independence (up to time labels) -/

theorem clientReplyStep_erased (p : PersonaConfig) (day : Nat) (dl : String)
    (dt1 dt2 : Nat) {st1 st2 : SimState} (h : ErasedEq st1 st2) :
    ErasedEq (clientReplyStep p day dl dt1 st1) (clientReplyStep p day dl dt2 st2) := by
  obtain ⟨s1, ev1, c1, a1, y1, r1⟩ := st1
  obtain ⟨s2, ev2, c2, a2, y2, r2⟩ := st2
  obtain ⟨h1, h2, h3, h4, h5, h6⟩ := h
  dsimp only at h1 h2 h3 h4 h5 h6
  subst h1
  subst h2
  subst h3
  subst h4
  subst h5
  unfold clientReplyStep
  dsimp only
  by_cases hA : ¬(s1 = Stage.converted ∨ s1 = Stage.lost)
  · rw [if_pos hA, if_pos hA]
    by_cases hr : (randomUnit r1).1 < p.reply_chance
    · rw [if_pos hr, if_pos hr]
      refine ⟨rfl, rfl, rfl, rfl, rfl, ?_⟩
      simp only [List.map_append, List.map_cons, List.map_nil, h6]
      simp [eraseTime]
    · rw [if_neg hr, if_neg hr]
      exact ⟨rfl, rfl, rfl, rfl, rfl, h6⟩
  · rw [if_neg hA, if_neg hA]
    exact ⟨rfl, rfl, rfl, rfl, rfl, h6⟩

theorem dropOffStep_erased (p : PersonaConfig) (day : Nat) (dl : String)
    (dt1 dt2 : Nat) {st1 st2 : SimState} (h : ErasedEq st1 st2) :
    ErasedEq (dropOffStep p day dl dt1 st1) (dropOffStep p day dl dt2 st2) := by
  obtain ⟨s1, ev1, c1, a1, y1, r1⟩ := st1
  obtain ⟨s2, ev2, c2, a2, y2, r2⟩ := st2
  obtain ⟨h1, h2, h3, h4, h5, h6⟩ := h
  dsimp only at h1 h2 h3 h4 h5 h6
  subst h1
  subst h2
  subst h3
  subst h4
  subst h5
  unfold dropOffStep
  dsimp only
  by_cases hA : ¬(s1 = Stage.converted ∨ s1 = Stage.lost)
  · rw [if_pos hA, if_pos hA]
    by_cases hr : (randomUnit r1).1 < p.drop_off_chance
    · rw [if_pos hr, if_pos hr]
      refine ⟨rfl, rfl, rfl, rfl, rfl, ?_⟩
      simp only [List.map_append, List.map_cons, List.map_nil, h6]
      simp [eraseTime]
    · rw [if_neg hr, if_neg hr]
      exact ⟨rfl, rfl, rfl, rfl, rfl, h6⟩
  · rw [if_neg hA, if_neg hA]
    exact ⟨rfl, rfl, rfl, rfl, rfl, h6⟩

theorem proactiveStep_erased (p : PersonaConfig) (day : Nat) (dl : String)
    (dt1 dt2 : Nat) {st1 st2 : SimState} (h : ErasedEq st1 st2) :
    ErasedEq (proactiveStep p day dl dt1 st1) (proactiveStep p day dl dt2 st2) := by
  obtain ⟨s1, ev1, c1, a1, y1, r1⟩ := st1
  obtain ⟨s2, ev2, c2, a2, y2, r2⟩ := st2
  obtain ⟨h1, h2, h3, h4, h5, h6⟩ := h
  dsimp only at h1 h2 h3 h4 h5 h6
  subst h1
  subst h2
  subst h3
  subst h4
  subst h5
  unfold proactiveStep
  dsimp only
  by_cases hA : ¬(s1 = Stage.converted ∨ s1 = Stage.lost)
  · rw [if_pos hA, if_pos hA]
    by_cases hr : (randomUnit r1).1 < p.proactive_chance
    · rw [if_pos hr, if_pos hr]
      refine ⟨rfl, rfl, rfl, rfl, rfl, ?_⟩
      simp only [List.map_append, List.map_cons, List.map_nil, h6]
      simp [eraseTime]
    · rw [if_neg hr, if_neg hr]
      exact ⟨rfl, rfl, rfl, rfl, rfl, h6⟩
  · rw [if_neg hA, if_neg hA]
    exact ⟨rfl, rfl, rfl, rfl, rfl, h6⟩

theorem revivalStep_erased (p : PersonaConfig) (day : Nat) (dl : String)
    (dt1 dt2 : Nat) {st1 st2 : SimState} (h : ErasedEq st1 st2) :
    ErasedEq (revivalStep p day dl dt1 st1) (revivalStep p day dl dt2 st2) := by
  obtain ⟨s1, ev1, c1, a1, y1, r1⟩ := st1
  obtain ⟨s2, ev2, c2, a2, y2, r2⟩ := st2
  obtain ⟨h1, h2, h3, h4, h5, h6⟩ := h
  dsimp only at h1 h2 h3 h4 h5 h6
  subst h1
  subst h2
  subst h3
  subst h4
  subst h5
  unfold revivalStep
  dsimp only
  by_cases hA : s1 = Stage.lost
  · rw [if_pos hA, if_pos hA]
    by_cases hr : (randomUnit r1).1 < p.revive_chance
    · rw [if_pos hr, if_pos hr]
      refine ⟨rfl, rfl, rfl, rfl, rfl, ?_⟩
      simp only [List.map_append, List.map_cons, List.map_nil, h6]
      simp [eraseTime]
    · rw [if_neg hr, if_neg hr]
      exact ⟨rfl, rfl, rfl, rfl, rfl, h6⟩
  · rw [if_neg hA, if_neg hA]
    exact ⟨rfl, rfl, rfl, rfl, rfl, h6⟩

theorem systemSummaryStep_erased (day : Nat) (dl : String) (dt1 dt2 : Nat)
    {st1 st2 : SimState} (h : ErasedEq st1 st2) :
    ErasedEq (systemSummaryStep day dl dt1 st1) (systemSummaryStep day dl dt2 st2) := by
  obtain ⟨s1, ev1, c1, a1, y1, r1⟩ := st1
  obtain ⟨s2, ev2, c2, a2, y2, r2⟩ := st2
  obtain ⟨h1, h2, h3, h4, h5, h6⟩ := h
  dsimp only at h1 h2 h3 h4 h5 h6
  subst h1
  subst h2
  subst h3
  subst h4
  subst h5
  unfold systemSummaryStep
  refine ⟨rfl, rfl, rfl, rfl, rfl, ?_⟩
  simp only [List.map_append, List.map_cons, List.map_nil, h6]
  simp [eraseTime]

theorem simDay_erased (p : PersonaConfig) (days now1 now2 day : Nat)
    {st1 st2 : SimState} (h : ErasedEq st1 st2) :
    ErasedEq (simDay p days now1 day st1) (simDay p days now2 day st2) := by
  simp only [simDay]
  exact systemSummaryStep_erased day _ _ _
    (revivalStep_erased p day _ _ _
      (proactiveStep_erased p day _ _ _
        (dropOffStep_erased p day _ _ _
          (clientReplyStep_erased p day _ _ _ h))))

theorem simFrom_erased (p : PersonaConfig) (days now1 now2 : Nat) :
    ∀ (fuel day : Nat) {st1 st2 : SimState}, ErasedEq st1 st2 →
      ErasedEq (simFrom p days now1 day fuel st1)
        (simFrom p days now2 day fuel st2) := by
  intro fuel
  induction fuel with
  | zero =>
      intro day st1 st2 h
      simpa [simFrom] using h
  | succ n ih =>
      intro day st1 st2 h
      simp only [simFrom]
      exact ih (day + 1) (simDay_erased p days now1 now2 day h)

/-! ### Graph builder lemmas -/

theorem stage_timeline_rows_length (events : List SimEvent) :
    ∀ (ds : List Nat) (last : Stage) (ord : List Stage),
      (stage_timeline_rows events ds last ord).length = ds.length := by
  intro ds
  induction ds with
  | nil =>
      intro last ord
      rfl
  | cons d ds ih =>
      intro last ord
      simp only [stage_timeline_rows, List.length_cons]
      rw [ih]

theorem foldl_countStep (d : Nat) :
    ∀ (l : List SimEvent) (acc : MsgRow),
      l.foldl (countStep d) acc =
        { day := acc.day,
          client := acc.client +
            l.countP (fun e => e.day_index == d && e.actor == Actor.client),
          assistant := acc.assistant +
            l.countP (fun e => e.day_index == d && e.actor == Actor.assistant),
          system := acc.system +
            l.countP (fun e => e.day_index == d && e.actor == Actor.system) } := by
  intro l
  induction l with
  | nil =>
      intro acc
      simp
  | cons e l ih =>
      intro acc
      simp only [List.foldl_cons, List.countP_cons]
      rw [ih]
      by_cases hd : e.day_index = d
      · cases ha : e.actor <;>
          simp [countStep, hd, ha, MsgRow.mk.injEq] <;> omega
      · simp [countStep, hd]

theorem dayCounts_spec (events : List SimEvent) (d : Nat) :
    dayCounts events d =
      { day := d,
        client := events.countP (fun e => e.day_index == d && e.actor == Actor.client),
        assistant := events.countP (fun e => e.day_index == d && e.actor == Actor.assistant),
        system := events.countP (fun e => e.day_index == d && e.actor == Actor.system) } := by
  unfold dayCounts
  rw [foldl_countStep]
  simp

theorem countP_actors_total (l : List SimEvent) :
    l.countP (fun e => e.actor == Actor.client) +
      l.countP (fun e => e.actor == Actor.assistant) +
      l.countP (fun e => e.actor == Actor.system) = l.length := by
  induction l with
  | nil => rfl
  | cons e l ih =>
      simp only [List.countP_cons, List.length_cons]
      cases ha : e.actor <;> simp [ha] <;> omega

/-! ### Run-level helper lemmas -/

theorem runState_sys_count (days : Int) (pk : String) (seed : Option Int)
    (now : Nat) :
    (runState days pk seed now).system_msg_count = (clampedDays days).toNat := by
  unfold runState
  rw [simFrom_sys_count]
  simp

theorem run_seed_congr (days : Int) (pk : String) (s1 s2 : Option Int) (now : Nat)
    (h : seed_or_clock s1 now = seed_or_clock s2 now) :
    run_client_simulation days pk s1 now = run_client_simulation days pk s2 now := by
  unfold run_client_simulation
  rw [h]

/-! ### Claim theorems -/

/-- Claim C3: `run_client_simulation` never rejects a requested `days` value:
the result's `days` is clamped into `[7, 90]`, equals the request when it is
already in range, the day loop runs exactly `result.days` iterations (one
system summary per iteration), and `run(days := 200, persona_key :=
"ghosting_lead")` yields `result.days = 90`. -/
theorem claim_C3 (days : Int) (pk : String) (seed : Option Int) (now : Nat) :
    7 ≤ (run_client_simulation days pk seed now).days ∧
    (run_client_simulation days pk seed now).days ≤ 90 ∧
    (7 ≤ days → days ≤ 90 → (run_client_simulation days pk seed now).days = days) ∧
    (run_client_simulation days pk seed now).stats.system_messages =
      (run_client_simulation days pk seed now).days.toNat ∧
    (run_client_simulation 200 "ghosting_lead" none now).days = 90 := by
  refine ⟨?_, ?_, ?_, ?_, ?_⟩
  · rw [run_client_simulation_eq]
    exact clampedDays_lower days
  · rw [run_client_simulation_eq]
    exact clampedDays_upper days
  · intro h1 h2
    rw [run_client_simulation_eq]
    exact clampedDays_id days h1 h2
  · rw [run_client_simulation_eq]
    exact runState_sys_count days pk seed now
  · rw [run_client_simulation_eq]
    show clampedDays 200 = 90
    decide

/-- Witness for C3 at a concrete in-range request: `days = 30` is honored
verbatim. -/
theorem claim_C3_witness :
    (run_client_simulation 30 "hot_lead" (some 5) 1700000000).days = 30 :=
  (claim_C3 30 "hot_lead" (some 5) 1700000000).2.2.1 (by decide) (by decide)

/-- Claim C4: persona resolution never fails: an unknown `persona_key`
falls back to the catalog's default persona (`hot_lead`) and the result's
`persona_key` is the fallback's key, while a catalogued key is echoed back
unchanged. -/
theorem claim_C4 (days : Int) (key : String) (seed : Option Int) (now : Nat) :
    (_PERSONAS.lookup key = none →
      (run_client_simulation days key seed now).persona_key = "hot_lead") ∧
    (∀ p, _PERSONAS.lookup key = some p →
      (run_client_simulation days key seed now).persona_key = key) := by
  have hkey : (run_client_simulation days key seed now).persona_key =
      (_get_persona key).key := by
    rw [run_client_simulation_eq]
  constructor
  · intro h
    rw [hkey]
    unfold _get_persona
    rw [h]
    rfl
  · intro p h
    rw [hkey]
    unfold _get_persona
    rw [h]
    exact (lookup_personas_some key p h).1

unseal Rat.ofScientific Rat.mul Rat.inv Rat.add Rat.sub in
/-- Witness for C4: the spec's concrete scenario (`"does_not_exist"` falls
back to `"hot_lead"`) and a catalogued key that is echoed back. -/
theorem claim_C4_witness :
    (run_client_simulation 30 "does_not_exist" none 1700000000).persona_key =
      "hot_lead" ∧
    (run_client_simulation 30 "ghosting_lead" none 1700000000).persona_key =
      "ghosting_lead" :=
  ⟨(claim_C4 30 "does_not_exist" none 1700000000).1 (by decide),
   (claim_C4 30 "ghosting_lead" none 1700000000).2 ghosting_lead (by decide)⟩

/-- Claim C5: Converted is absorbing in the emitted event list (from the
first event with `stage_after = Converted` on, every event has
`stage_after = Converted`), and every event leaving `Lost` goes to `Warm`
(revival) or stays `Lost`. -/
theorem claim_C5 (days : Int) (pk : String) (seed : Option Int) (now : Nat) :
    convStickyB (run_client_simulation days pk seed now).events = true ∧
    lostOkB (run_client_simulation days pk seed now).events = true := by
  have h := runState_inv days pk seed now
  rw [run_client_simulation_eq]
  exact ⟨h.sticky, h.lost_ok⟩

/-- Claim C6: message conservation: `stats.total_messages` equals the length
of the event list and the sum of the three per-actor counters, and each
counter counts exactly the events of its actor. -/
theorem claim_C6 (days : Int) (pk : String) (seed : Option Int) (now : Nat) :
    (run_client_simulation days pk seed now).stats.total_messages =
      (run_client_simulation days pk seed now).events.length ∧
    (run_client_simulation days pk seed now).stats.total_messages =
      (run_client_simulation days pk seed now).stats.client_messages +
      (run_client_simulation days pk seed now).stats.assistant_messages +
      (run_client_simulation days pk seed now).stats.system_messages ∧
    (run_client_simulation days pk seed now).stats.client_messages =
      (run_client_simulation days pk seed now).events.countP
        (fun e => e.actor == Actor.client) ∧
    (run_client_simulation days pk seed now).stats.assistant_messages =
      (run_client_simulation days pk seed now).events.countP
        (fun e => e.actor == Actor.assistant) ∧
    (run_client_simulation days pk seed now).stats.system_messages =
      (run_client_simulation days pk seed now).events.countP
        (fun e => e.actor == Actor.system) := by
  have h := runState_inv days pk seed now
  rw [run_client_simulation_eq]
  refine ⟨?_, rfl, h.counts_client, h.counts_assistant, h.counts_system⟩
  show (runState days pk seed now).client_msg_count +
      (runState days pk seed now).assistant_msg_count +
      (runState days pk seed now).system_msg_count =
      (runState days pk seed now).events.length
  rw [h.counts_client, h.counts_assistant, h.counts_system]
  exact countP_actors_total (runState days pk seed now).events

/-- Claim C7 (amended): the graph builder returns timelines of length
`max(days, 0)` — exactly `days` entries for every non-negative `days`, and
in a simulation result exactly `result.days` entries; each message-timeline
entry carries the per-actor counts of the events of its day, all-zero for a
day with no events. -/
theorem claim_C7 (events : List SimEvent) (days : Int) (d : Nat)
    (days2 : Int) (pk : String) (seed : Option Int) (now : Nat) :
    (build_conversation_graph events days).stage_timeline.length = days.toNat ∧
    (build_conversation_graph events days).message_timeline.length = days.toNat ∧
    (run_client_simulation days2 pk seed now).graphs.stage_timeline.length =
      (run_client_simulation days2 pk seed now).days.toNat ∧
    (run_client_simulation days2 pk seed now).graphs.message_timeline.length =
      (run_client_simulation days2 pk seed now).days.toNat ∧
    (build_conversation_graph events days).message_timeline =
      (List.range' 1 days.toNat).map (fun d2 =>
        { day := d2
          client := events.countP (fun e => e.day_index == d2 && e.actor == Actor.client)
          assistant := events.countP (fun e => e.day_index == d2 && e.actor == Actor.assistant)
          system := events.countP (fun e => e.day_index == d2 && e.actor == Actor.system) }) ∧
    ((∀ e ∈ events, e.day_index ≠ d) →
      dayCounts events d = { day := d, client := 0, assistant := 0, system := 0 }) := by
  refine ⟨?_, ?_, ?_, ?_, ?_, ?_⟩
  · unfold build_conversation_graph
    rw [stage_timeline_rows_length]
    simp [List.length_range']
  · unfold build_conversation_graph
    rw [List.length_map]
    simp [List.length_range']
  · rw [run_client_simulation_eq]
    show (build_conversation_graph _ (clampedDays days2)).stage_timeline.length = _
    unfold build_conversation_graph
    rw [stage_timeline_rows_length]
    simp [List.length_range']
  · rw [run_client_simulation_eq]
    show (build_conversation_graph _ (clampedDays days2)).message_timeline.length = _
    unfold build_conversation_graph
    rw [List.length_map]
    simp [List.length_range']
  · unfold build_conversation_graph
    simp only [dayCounts_spec]
  · intro h
    rw [dayCounts_spec]
    have hc : ∀ (a : Actor),
        events.countP (fun e => e.day_index == d && e.actor == a) = 0 := by
      intro a
      rw [List.countP_eq_zero]
      intro e he
      simp [h e he]
    simp [hc]

/-- Witness for C7: the all-zero row for a day with no events, at the empty
event list. -/
theorem claim_C7_witness :
    dayCounts [] 1 = { day := 1, client := 0, assistant := 0, system := 0 } :=
  (claim_C7 [] 3 1 7 "hot_lead" (some 1) 1700000000).2.2.2.2.2 (by decide)

/-- Claim C9: every simulated day emits exactly one system event
(`stats.system_messages = result.days`), day indices never decrease, a
system event is the last event of its day, and system events never change
the stage. -/
theorem claim_C9 (days : Int) (pk : String) (seed : Option Int) (now : Nat) :
    (run_client_simulation days pk seed now).stats.system_messages =
      (run_client_simulation days pk seed now).days.toNat ∧
    ((List.range' 1 (run_client_simulation days pk seed now).days.toNat).all
      (fun d => (run_client_simulation days pk seed now).events.countP
        (fun e => e.actor == Actor.system && e.day_index == d) == 1)) = true ∧
    List.Chain' evtOrder (run_client_simulation days pk seed now).events ∧
    sysStageB (run_client_simulation days pk seed now).events = true := by
  have h := runState_inv days pk seed now
  rw [run_client_simulation_eq]
  refine ⟨runState_sys_count days pk seed now, ?_, h.ordered, h.sys_stage⟩
  rw [List.all_eq_true]
  intro d hd
  obtain ⟨h1, h2⟩ := List.mem_range'_1.mp hd
  dsimp only at h2
  show ((runState days pk seed now).events.countP
    (fun e => e.actor == Actor.system && e.day_index == d) == 1) = true
  rw [h.sys_day_count d, if_pos ⟨h1, by omega⟩]
  rfl

/-- Claim C10: the `Won` stage is unreachable: the final stage is never
`Won` and no emitted event has `Won` as its `stage_before` or
`stage_after`. -/
theorem claim_C10 (days : Int) (pk : String) (seed : Option Int) (now : Nat) :
    ((run_client_simulation days pk seed now).final_stage == Stage.won) = false ∧
    wonFreeB (run_client_simulation days pk seed now).events = true := by
  have h := runState_inv days pk seed now
  rw [run_client_simulation_eq]
  exact ⟨beq_eq_false_iff_ne.mpr h.won_stage, h.won_free⟩

/-- Claim C1 (amended): for a fixed nonzero supplied seed, two calls to
`run_client_simulation` with the same `(persona_key, days, seed)` produce
events lists that agree on every field except `time_label` (in particular
the `message` sequences are identical); the `time_label`s embed the
wall-clock time of the call, so byte-for-byte identity holds only when the
wall-clock seconds coincide, and a supplied seed of `0` is excluded because
it falls back to the wall clock (claim C8). -/
theorem claim_C1 (days : Int) (pk : String) (s : Int) (now1 now2 : Nat)
    (hs : s ≠ 0) :
    (run_client_simulation days pk (some s) now1).events.map eraseTime =
    (run_client_simulation days pk (some s) now2).events.map eraseTime := by
  rw [run_client_simulation_eq, run_client_simulation_eq]
  show (runState days pk (some s) now1).events.map eraseTime =
    (runState days pk (some s) now2).events.map eraseTime
  unfold runState
  have h0 : ErasedEq
      { current_stage := (_get_persona pk).starting_stage, events := [],
        client_msg_count := 0, assistant_msg_count := 0, system_msg_count := 0,
        rnd := mkRandom (seed_or_clock (some s) now1) }
      { current_stage := (_get_persona pk).starting_stage, events := [],
        client_msg_count := 0, assistant_msg_count := 0, system_msg_count := 0,
        rnd := mkRandom (seed_or_clock (some s) now2) } := by
    refine ⟨rfl, rfl, rfl, rfl, ?_, rfl⟩
    show mkRandom (seed_or_clock (some s) now1) =
      mkRandom (seed_or_clock (some s) now2)
    simp [seed_or_clock, hs]
  exact (simFrom_erased (_get_persona pk) (clampedDays days).toNat now1 now2
    (clampedDays days).toNat 1 h0).2.2.2.2.2

set_option maxHeartbeats 4000000 in
unseal Rat.ofScientific Rat.mul Rat.inv Rat.add Rat.sub in
/-- Counterexample to C1 as stated: with the same `(persona_key, days,
seed)` but different wall-clock call times the events lists differ
byte-for-byte (the `time_label`s change), and with the supplied seed `0`
even the `message` sequences differ. -/
theorem claim_C1_counterexample :
    ((run_client_simulation 7 "hot_lead" (some 42) 1700000000).events ==
      (run_client_simulation 7 "hot_lead" (some 42) 1700001800).events) = false ∧
    ((run_client_simulation 7 "hot_lead" (some 0) 1700000000).events.map
        (fun e => e.message) ==
      (run_client_simulation 7 "hot_lead" (some 0) 1700001800).events.map
        (fun e => e.message)) = false := by
  constructor <;> decide

/-- Witness for C1 at a concrete nonzero seed and two distinct call times. -/
theorem claim_C1_witness :
    (run_client_simulation 7 "hot_lead" (some 42) 1700000000).events.map eraseTime =
    (run_client_simulation 7 "hot_lead" (some 42) 1700001800).events.map eraseTime :=
  claim_C1 7 "hot_lead" 42 1700000000 1700001800 (by decide)

/-- Claim C2 (amended): a positive call to `_next_stage` from any forward
stage — `Under Contract` included — advances exactly one stage in the
canonical flow when the draw is below `0.70` and stays put otherwise; the
advance from `Under Contract` lands on `Converted`, but it is probabilistic
like every other forward advance (the unconditional graduation branch of
the source is unreachable). -/
theorem claim_C2 (c : Stage) (g : Nat) (h1 : c ≠ .converted) (h2 : c ≠ .lost)
    (h3 : c ≠ .won) :
    _next_stage c true g =
      (if (randomUnit g).1 < (0.70 : Rat) then forwardNext c else c,
       (randomUnit g).2) ∧
    _STAGE_FLOW.indexOf (forwardNext c) = _STAGE_FLOW.indexOf c + 1 ∧
    (c = .underContract → forwardNext c = .converted) := by
  have hn : ¬(c = .converted ∨ c = .lost ∨ c = .won) := by
    rintro (h | h | h)
    · exact h1 h
    · exact h2 h
    · exact h3 h
  refine ⟨next_stage_pos c g hn, ?_, ?_⟩
  · rcases c <;> first
      | exact absurd rfl h1
      | exact absurd rfl h2
      | exact absurd rfl h3
      | decide
  · intro hc
    subst hc
    decide

unseal Rat.ofScientific Rat.mul Rat.inv Rat.add Rat.sub in
/-- Counterexample to C2 as stated: at a PRNG state whose draw is at least
`0.70`, a positive call at `Under Contract` stays at `Under Contract`
instead of returning `Converted` unconditionally. -/
theorem claim_C2_counterexample :
    (_next_stage Stage.underContract true 0).1 = Stage.underContract ∧
    ((_next_stage Stage.underContract true 0).1 == Stage.converted) = false := by
  constructor <;> decide

/-- Witness for C2 at `Under Contract` and PRNG state `0`. -/
theorem claim_C2_witness :
    _next_stage Stage.underContract true 0 =
      (if (randomUnit 0).1 < (0.70 : Rat) then forwardNext Stage.underContract
       else Stage.underContract, (randomUnit 0).2) ∧
    _STAGE_FLOW.indexOf (forwardNext Stage.underContract) =
      _STAGE_FLOW.indexOf Stage.underContract + 1 ∧
    (Stage.underContract = Stage.underContract →
      forwardNext Stage.underContract = Stage.converted) :=
  claim_C2 Stage.underContract 0 (by decide) (by decide) (by decide)

/-- Counterexample to C7 as stated: for the negative requested value
`days = -1` the builder returns empty timelines, whose length `0` is not
equal to `days`. -/
theorem claim_C7_counterexample :
    (build_conversation_graph [] (-1)).stage_timeline.length = 0 ∧
    (build_conversation_graph [] (-1)).message_timeline.length = 0 ∧
    ((((build_conversation_graph [] (-1)).stage_timeline.length : Int)) ==
      (-1 : Int)) = false := by
  refine ⟨rfl, rfl, by decide⟩

/-- Claim C8: a supplied seed of `0` is treated exactly like an omitted
seed (Python's `seed or int(utcnow.timestamp())` takes the wall clock for
both), while every nonzero supplied seed seeds the PRNG with exactly that
value. -/
theorem claim_C8 (days : Int) (pk : String) (now : Nat) :
    run_client_simulation days pk (some 0) now =
      run_client_simulation days pk none now ∧
    ∀ s : Int, s ≠ 0 → seed_or_clock (some s) now = s := by
  constructor
  · exact run_seed_congr days pk (some 0) none now (by simp [seed_or_clock])
  · intro s hs
    simp [seed_or_clock, hs]

/-- Witness for C8 at concrete inputs. -/
theorem claim_C8_witness :
    run_client_simulation 7 "hot_lead" (some 0) 1700000000 =
      run_client_simulation 7 "hot_lead" none 1700000000 ∧
    seed_or_clock (some 42) 1700000000 = 42 :=
  ⟨(claim_C8 7 "hot_lead" 1700000000).1,
   (claim_C8 7 "hot_lead" 1700000000).2 42 (by decide)⟩

end SimEngine
